import Mathlib

/-!
Verification of the pagination/counting core of a GitHub metrics client
(`github_client.py`).  The HTTP world is modelled by an oracle
`Get : url → params → GetResult`: a call either raises a transport
exception (`GetResult.fail`, Python `requests.exceptions.RequestException`)
or returns an `HttpResponse` carrying the status code, the optional
pagination `Link` header, and the JSON body (the length of the list body
for list endpoints, a field record for the core repo endpoint; JSON
decoding itself is assumed to succeed).  Every embedded operation also
returns the list of requests it issued, so that claims about request
counts ("exactly one additional request", "never an 11th page") are
statable.

Python string primitives (`split`, `strip`, `in`, `int(...)`) are
re-implemented structurally over `List Char` so that all definitions
evaluate by kernel reduction.
-/

/-- Python `sep` is a prefix of `s` (used by the `split` scan). -/
def isPre : List Char → List Char → Bool
  | [], _ => true
  | _ :: _, [] => false
  | a :: as, b :: bs => a == b && isPre as bs

/-- Fuel-driven scan implementing Python `s.split(sep)` for non-empty `sep`.
The fuel is set to `s.length + 1` by the wrapper; each step consumes at
least one character, so the fuel-exhaustion branch is unreachable there. -/
def splitFuel (sep : List Char) : Nat → List Char → List (List Char)
  | _, [] => [[]]
  | 0, s => [s]
  | fuel + 1, c :: cs =>
    if isPre sep (c :: cs) then
      [] :: splitFuel sep fuel ((c :: cs).drop sep.length)
    else
      match splitFuel sep fuel cs with
      | g :: gs => (c :: g) :: gs
      | [] => [[c]]

/-- Python `s.split(sep)` (for the non-empty separators used in the source). -/
def pySplit (sep s : String) : List String :=
  (splitFuel sep.toList (s.toList.length + 1) s.toList).map String.mk

/-- Python `sub in s` (substring containment, `sub` non-empty). -/
def pyContains (sub s : String) : Bool :=
  (pySplit sub s).length != 1

/-- Drop characters satisfying `p` from the end of a list. -/
def dropEndWhile (p : Char → Bool) (l : List Char) : List Char :=
  (l.reverse.dropWhile p).reverse

/-- Strip characters satisfying `p` from both ends. -/
def pyStripBy (p : Char → Bool) (s : String) : String :=
  String.mk (dropEndWhile p (s.toList.dropWhile p))

/-- Python `s.strip()` (whitespace). -/
def pyStripWs (s : String) : String :=
  pyStripBy Char.isWhitespace s

/-- Python `s.strip("<>")`. -/
def pyStripAngles (s : String) : String :=
  pyStripBy (fun c => c == '<' || c == '>') s

/-- Numeric value of a digit list (most significant first). -/
def digitsToNat (l : List Char) : Nat :=
  l.foldl (fun a c => 10 * a + (c.toNat - 48)) 0

/-- Python `int(s)`: surrounding whitespace ignored, optional sign, then a
non-empty run of decimal digits; `none` models the raised `ValueError`.
(Python also accepts digit-group underscores, never produced here.) -/
def pyInt (s : String) : Option Int :=
  match (pyStripWs s).toList with
  | '-' :: rest =>
    if rest ≠ [] ∧ rest.all Char.isDigit then some (-(digitsToNat rest : Int)) else none
  | '+' :: rest =>
    if rest ≠ [] ∧ rest.all Char.isDigit then some (digitsToNat rest : Int) else none
  | l =>
    if l ≠ [] ∧ l.all Char.isDigit then some (digitsToNat l : Int) else none

/-- The dict body of the core `GET /repos/{repo}` response: each field is
`none` when the key is absent.  `language` is doubly optional: the key may
be absent (outer `none`) or present with a JSON `null` value
(`some none`). -/
structure CoreData where
  stargazersCount : Option Int := none
  forksCount : Option Int := none
  watchersCount : Option Int := none
  openIssuesCount : Option Int := none
  size : Option Int := none
  language : Option (Option String) := none
  createdAt : Option String := none
  updatedAt : Option String := none
deriving Repr, DecidableEq

/-- An HTTP response: status code, optional `Link` header, and the JSON
body.  `bodyLen` is `len(response.json())` for list endpoints; `bodyCore`
is the decoded object for the core repo endpoint (each endpoint reads only
the field corresponding to its body shape). -/
structure HttpResponse where
  status : Nat
  linkHeader : Option String := none
  bodyLen : Nat := 0
  bodyCore : CoreData := {}
deriving Repr, DecidableEq

/-- Result of `session.get`: a raised transport exception or a response. -/
inductive GetResult where
  | fail (e : String)
  | ok (r : HttpResponse)
deriving Repr, DecidableEq

/-- One issued request: URL plus query parameters. -/
structure Req where
  url : String
  params : List (String × String)
deriving Repr, DecidableEq

/-- The HTTP session as an oracle. -/
def Get : Type := String → List (String × String) → GetResult

def baseUrl : String := "https://api.github.com"

def reposUrl (repo : String) : String := baseUrl ++ "/repos/" ++ repo
def contributorsUrl (repo : String) : String := reposUrl repo ++ "/contributors"
def commitsUrl (repo : String) : String := reposUrl repo ++ "/commits"
def pullsUrl (repo : String) : String := reposUrl repo ++ "/pulls"
def issuesUrl (repo : String) : String := reposUrl repo ++ "/issues"

/-- The literal `rel="last"` searched for in the `Link` header. -/
def relLast : String := "rel=\"last\""

/-- `link_header.split(relLast)[0].split(",")[-1].strip().strip("<>")`:
the URL of the `rel="last"` link (source lines 87 and 199). -/
def lastUrlOf (lh : String) : String :=
  pyStripAngles (pyStripWs (List.getLastD (pySplit "," (List.headD (pySplit relLast lh) "")) ""))

/-- `int(u.split("page=")[1].split("&")[0])`: `none` models the raised
`IndexError` (no `"page="` in `u`) or `ValueError` (non-numeric piece).
Note the split is on the first occurrence of the literal `"page="`, which
also matches inside `"per_page="`. -/
def pageOfUrl (u : String) : Option Int :=
  match (pySplit "page=" u).get? 1 with
  | none => none
  | some t => pyInt (List.headD (pySplit "&" t) "")

/-- `int(u.split("per_page=")[1].split("&")[0])`, evaluated only when
`"per_page=" in u` holds, so the index 1 exists; `none` models the raised
`ValueError`. -/
def perPageOfUrl (u : String) : Option Int :=
  match (pySplit "per_page=" u).get? 1 with
  | none => none
  | some t => pyInt (List.headD (pySplit "&" t) "")

/-- The pagination-parsing phase of `_count_from_pagination` (source lines
196-202): requires a `Link` header containing `rel="last"`, extracts the
last-page URL, parses `page=` (failure: `IndexError`/`ValueError`, caught
→ `none`), and `per_page=` when present (default 30 when the link omits
it).  Returns `(last_page_url, last_page, per_page)`. -/
def lastLinkParse (r : HttpResponse) : Option (String × Int × Int) :=
  match r.linkHeader with
  | none => none
  | some lh =>
    if pyContains relLast lh then
      let lpu := lastUrlOf lh
      match pageOfUrl lpu with
      | none => none
      | some lastPage =>
        if pyContains "per_page=" lpu then
          match perPageOfUrl lpu with
          | none => none
          | some perPage => some (lpu, lastPage, perPage)
        else some (lpu, lastPage, 30)
    else none

/-- The fallback tail of `_count_from_pagination` (source lines 212-220):
one request to the base URL; any transport failure or non-200 status
yields 0.  `tr` is the trace accumulated before falling back. -/
def countFallback (get : Get) (base : String) (tr : List Req) : Except String Int × List Req :=
  match get base [] with
  | .fail _ => (.ok 0, tr ++ [⟨base, []⟩])
  | .ok fr =>
    if fr.status = 200 then (.ok (fr.bodyLen : Int), tr ++ [⟨base, []⟩])
    else (.ok 0, tr ++ [⟨base, []⟩])

/-- `_count_from_pagination` (source lines 194-220).  When the last link
parses, the last page is fetched with `self.session.get(last_page_url)`:
the surrounding `try` catches only `(ValueError, IndexError)`, so a raised
transport exception there propagates to the caller — modelled as
`Except.error`.  A 200 answer yields `(last_page - 1) * per_page + items`;
a non-200 answer falls through to the fallback. -/
def countFromPagination (get : Get) (r : HttpResponse) (base : String) :
    Except String Int × List Req :=
  match lastLinkParse r with
  | some (lpu, lastPage, perPage) =>
    match get lpu [] with
    | .fail e => (.error e, [⟨lpu, []⟩])
    | .ok lr =>
      if lr.status = 200 then
        (.ok ((lastPage - 1) * perPage + (lr.bodyLen : Int)), [⟨lpu, []⟩])
      else countFallback get base [⟨lpu, []⟩]
  | none => countFallback get base []

/-- `_get_contributors_count`, tail after a `Link` header without a usable
last link (source lines 91-94): full fetch of the contributors URL; any
failure is caught by the surrounding `except Exception` and yields 0. -/
def contributorsFull (get : Get) (url : String) (tr : List Req) : Int × List Req :=
  match get url [] with
  | .fail _ => (0, tr ++ [⟨url, []⟩])
  | .ok r2 =>
    if 400 ≤ r2.status then (0, tr ++ [⟨url, []⟩])
    else ((r2.bodyLen : Int), tr ++ [⟨url, []⟩])

/-- `_get_contributors_count` (source lines 74-97): one request with
`per_page=1`; if the `Link` header has a `rel="last"` link, the parsed
page number is returned directly (a parse failure raises and the outer
`except Exception` yields 0); otherwise the full list is fetched and its
length returned.  `raise_for_status` raises for status ≥ 400. -/
def getContributorsCount (get : Get) (repo : String) : Int × List Req :=
  let url := contributorsUrl repo
  match get url [("per_page", "1")] with
  | .fail _ => (0, [⟨url, [("per_page", "1")]⟩])
  | .ok r =>
    if 400 ≤ r.status then (0, [⟨url, [("per_page", "1")]⟩])
    else
      match r.linkHeader with
      | some lh =>
        if pyContains relLast lh then
          match pageOfUrl (lastUrlOf lh) with
          | some n => (n, [⟨url, [("per_page", "1")]⟩])
          | none => (0, [⟨url, [("per_page", "1")]⟩])
        else contributorsFull get url [⟨url, [("per_page", "1")]⟩]
      | none => contributorsFull get url [⟨url, [("per_page", "1")]⟩]

/-- The `while len(commits) == 100` loop of `_get_recent_commits_count`
(source lines 116-131), entered with `page = 2`.  A non-200 page breaks
out returning the accumulated total; otherwise the page's length is added,
`page` is incremented and the loop stops once `page > 10`.  A transport
failure raises (`Except.error`), caught by the function's `except`.
The fuel argument only bounds the recursion: started at 9 with `page = 2`
it never reaches 0, because the `page > 10` check fires first. -/
def commitsLoop (get : Get) (url since : String) :
    Nat → Nat → Nat → Nat → Except String Nat × List Req
  | 0, _, total, _ => (.ok total, [])
  | fuel + 1, commitsLen, total, page =>
    if commitsLen = 100 then
      match get url [("since", since), ("per_page", "100"), ("page", toString page)] with
      | .fail e => (.error e, [⟨url, [("since", since), ("per_page", "100"), ("page", toString page)]⟩])
      | .ok r =>
        if r.status ≠ 200 then
          (.ok total, [⟨url, [("since", since), ("per_page", "100"), ("page", toString page)]⟩])
        else
          if page + 1 > 10 then
            (.ok (total + r.bodyLen), [⟨url, [("since", since), ("per_page", "100"), ("page", toString page)]⟩])
          else
            match commitsLoop get url since fuel r.bodyLen (total + r.bodyLen) (page + 1) with
            | (res, tr) =>
              (res, ⟨url, [("since", since), ("per_page", "100"), ("page", toString page)]⟩ :: tr)
    else (.ok total, [])

/-- `_get_recent_commits_count` (source lines 99-136): first page with
`since` and `per_page=100` (a failure or a `raise_for_status` raise yields
0 through the `except`), then the bounded page loop; a transport exception
inside the loop is caught by the same `except` and yields 0 — discarding
the partial total. -/
def getRecentCommitsCount (get : Get) (since repo : String) : Int × List Req :=
  let url := commitsUrl repo
  match get url [("since", since), ("per_page", "100")] with
  | .fail _ => (0, [⟨url, [("since", since), ("per_page", "100")]⟩])
  | .ok r =>
    if 400 ≤ r.status then (0, [⟨url, [("since", since), ("per_page", "100")]⟩])
    else
      match commitsLoop get url since 9 r.bodyLen r.bodyLen 2 with
      | (.error _, tr) => (0, ⟨url, [("since", since), ("per_page", "100")]⟩ :: tr)
      | (.ok total, tr) => ((total : Int), ⟨url, [("since", since), ("per_page", "100")]⟩ :: tr)

/-- `int(closed_count * 0.8)` (source line 156): the float product is
exact as a rational for every count reachable in practice (`|c| < 2^50`),
and Python `int` truncates toward zero, i.e. `Int.tdiv`. -/
def pyIntMul08 (c : Int) : Int := Int.tdiv (4 * c) 5

/-- The `{open, closed, merged, total}` dict of `_get_pull_requests_data`. -/
structure PrData where
  openCount : Int
  closedCount : Int
  mergedCount : Int
  totalCount : Int
deriving Repr, DecidableEq

/-- The `{open, closed, total}` dict of `_get_issues_data`. -/
structure IssuesData where
  openCount : Int
  closedCount : Int
  totalCount : Int
deriving Repr, DecidableEq

/-- `_get_pull_requests_data` (source lines 138-166): open then closed
state queries with `per_page=1`, each counted via the Paginated Counter;
`merged = int(closed * 0.8)`, `total = open + closed`.  Any raise
(including a counter-propagated transport exception) is caught by the
`except Exception` and yields the all-zero dict. -/
def getPullRequestsData (get : Get) (repo : String) : PrData × List Req :=
  let url := pullsUrl repo
  match get url [("state", "open"), ("per_page", "1")] with
  | .fail _ => (⟨0, 0, 0, 0⟩, [⟨url, [("state", "open"), ("per_page", "1")]⟩])
  | .ok ro =>
    if 400 ≤ ro.status then (⟨0, 0, 0, 0⟩, [⟨url, [("state", "open"), ("per_page", "1")]⟩])
    else
      match countFromPagination get ro (url ++ "?state=open") with
      | (.error _, trO) => (⟨0, 0, 0, 0⟩, ⟨url, [("state", "open"), ("per_page", "1")]⟩ :: trO)
      | (.ok openCount, trO) =>
        match get url [("state", "closed"), ("per_page", "1")] with
        | .fail _ =>
          (⟨0, 0, 0, 0⟩,
            ⟨url, [("state", "open"), ("per_page", "1")]⟩ :: trO ++ [⟨url, [("state", "closed"), ("per_page", "1")]⟩])
        | .ok rc =>
          if 400 ≤ rc.status then
            (⟨0, 0, 0, 0⟩,
              ⟨url, [("state", "open"), ("per_page", "1")]⟩ :: trO ++ [⟨url, [("state", "closed"), ("per_page", "1")]⟩])
          else
            match countFromPagination get rc (url ++ "?state=closed") with
            | (.error _, trC) =>
              (⟨0, 0, 0, 0⟩,
                ⟨url, [("state", "open"), ("per_page", "1")]⟩ :: trO ++ ⟨url, [("state", "closed"), ("per_page", "1")]⟩ :: trC)
            | (.ok closedCount, trC) =>
              (⟨openCount, closedCount, pyIntMul08 closedCount, openCount + closedCount⟩,
                ⟨url, [("state", "open"), ("per_page", "1")]⟩ :: trO ++ ⟨url, [("state", "closed"), ("per_page", "1")]⟩ :: trC)

/-- `_get_issues_data` (source lines 168-192): same shape as the pull
request assembly, without the merged estimate. -/
def getIssuesData (get : Get) (repo : String) : IssuesData × List Req :=
  let url := issuesUrl repo
  match get url [("state", "open"), ("per_page", "1")] with
  | .fail _ => (⟨0, 0, 0⟩, [⟨url, [("state", "open"), ("per_page", "1")]⟩])
  | .ok ro =>
    if 400 ≤ ro.status then (⟨0, 0, 0⟩, [⟨url, [("state", "open"), ("per_page", "1")]⟩])
    else
      match countFromPagination get ro (url ++ "?state=open") with
      | (.error _, trO) => (⟨0, 0, 0⟩, ⟨url, [("state", "open"), ("per_page", "1")]⟩ :: trO)
      | (.ok openCount, trO) =>
        match get url [("state", "closed"), ("per_page", "1")] with
        | .fail _ =>
          (⟨0, 0, 0⟩,
            ⟨url, [("state", "open"), ("per_page", "1")]⟩ :: trO ++ [⟨url, [("state", "closed"), ("per_page", "1")]⟩])
        | .ok rc =>
          if 400 ≤ rc.status then
            (⟨0, 0, 0⟩,
              ⟨url, [("state", "open"), ("per_page", "1")]⟩ :: trO ++ [⟨url, [("state", "closed"), ("per_page", "1")]⟩])
          else
            match countFromPagination get rc (url ++ "?state=closed") with
            | (.error _, trC) =>
              (⟨0, 0, 0⟩,
                ⟨url, [("state", "open"), ("per_page", "1")]⟩ :: trO ++ ⟨url, [("state", "closed"), ("per_page", "1")]⟩ :: trC)
            | (.ok closedCount, trC) =>
              (⟨openCount, closedCount, openCount + closedCount⟩,
                ⟨url, [("state", "open"), ("per_page", "1")]⟩ :: trO ++ ⟨url, [("state", "closed"), ("per_page", "1")]⟩ :: trC)

/-- The assembled record of `get_repo_data` / `_get_error_data` (all 17
documented fields plus the optional `error`).  Python `None` values are
`Option.none`; in particular `language` is `Option String` because
`repo_data.get("language", "Unknown")` passes a stored `null` through. -/
structure RepositoryMetrics where
  repo : String
  stars : Int
  forks : Int
  watchers : Int
  contributors : Int
  open_issues : Int
  total_issues : Int
  closed_issues : Int
  open_prs : Int
  total_prs : Int
  closed_prs : Int
  merged_prs : Int
  recent_commits_30d : Int
  size_kb : Int
  language : Option String
  created_at : String
  updated_at : String
  last_fetched : String
  error : Option String
deriving Repr, DecidableEq

/-- `_get_error_data` (source lines 222-244): the all-zero record carrying
the error string. -/
def errorData (repo e nowIso : String) : RepositoryMetrics where
  repo := repo
  stars := 0
  forks := 0
  watchers := 0
  contributors := 0
  open_issues := 0
  total_issues := 0
  closed_issues := 0
  open_prs := 0
  total_prs := 0
  closed_prs := 0
  merged_prs := 0
  recent_commits_30d := 0
  size_kb := 0
  language := some "Unknown"
  created_at := ""
  updated_at := ""
  last_fetched := nowIso
  error := some e

/-- The message of the `requests.HTTPError` raised by `raise_for_status`
on a status ≥ 400 (the exact wording of the library's message is not
modelled; only its non-emptiness matters to the claims). -/
def httpErrorMsg (status : Nat) : String :=
  "HTTP error for status " ++ toString status

/-- `get_repo_data` (source lines 20-72): core repo query (a transport
failure or a `raise_for_status` raise is caught by the
`except RequestException` and yields the error record), then the four
sub-fetches — contributors, recent commits, pull requests, issues — each
of which absorbs its own failures, and record assembly.  `open_issues`
comes from the core body's `open_issues_count`, while `total_issues` and
`closed_issues` come from the issues sub-fetch.  `since` models the
computed 30-day cutoff string and `nowIso` the `datetime.now()`
timestamp. -/
def getRepoData (get : Get) (since nowIso repo : String) : RepositoryMetrics × List Req :=
  match get (reposUrl repo) [] with
  | .fail e => (errorData repo e nowIso, [⟨reposUrl repo, []⟩])
  | .ok r =>
    if 400 ≤ r.status then
      (errorData repo (httpErrorMsg r.status) nowIso, [⟨reposUrl repo, []⟩])
    else
      match getContributorsCount get repo with
      | (contributorsCount, trContrib) =>
        match getRecentCommitsCount get since repo with
        | (recentCommits, trCommits) =>
          match getPullRequestsData get repo with
          | (prData, trPr) =>
            match getIssuesData get repo with
            | (issuesData, trIssues) =>
              ({ repo := repo
                 stars := r.bodyCore.stargazersCount.getD 0
                 forks := r.bodyCore.forksCount.getD 0
                 watchers := r.bodyCore.watchersCount.getD 0
                 contributors := contributorsCount
                 open_issues := r.bodyCore.openIssuesCount.getD 0
                 total_issues := issuesData.totalCount
                 closed_issues := issuesData.closedCount
                 open_prs := prData.openCount
                 total_prs := prData.totalCount
                 closed_prs := prData.closedCount
                 merged_prs := prData.mergedCount
                 recent_commits_30d := recentCommits
                 size_kb := r.bodyCore.size.getD 0
                 language := match r.bodyCore.language with
                   | none => some "Unknown"
                   | some v => v
                 created_at := r.bodyCore.createdAt.getD ""
                 updated_at := r.bodyCore.updatedAt.getD ""
                 last_fetched := nowIso
                 error := none },
                ⟨reposUrl repo, []⟩ :: (trContrib ++ trCommits ++ trPr ++ trIssues))

/-- All thirteen numeric fields of a record are zero (the shape of a
degraded record per the spec's data model). -/
def allNumericZero (m : RepositoryMetrics) : Bool :=
  m.stars = 0 && m.forks = 0 && m.watchers = 0 && m.contributors = 0 &&
  m.open_issues = 0 && m.total_issues = 0 && m.closed_issues = 0 &&
  m.open_prs = 0 && m.total_prs = 0 && m.closed_prs = 0 && m.merged_prs = 0 &&
  m.recent_commits_30d = 0 && m.size_kb = 0

/-! ## Helper lemmas -/

/-- The `raise_for_status` message is never the empty string. -/
theorem httpErrorMsg_ne_empty (n : Nat) : httpErrorMsg n ≠ "" := by
  intro h
  have h2 := congrArg String.data h
  rw [httpErrorMsg, String.data_append] at h2
  simp at h2

/-- The fallback path of the counter never raises: every outcome is `ok`. -/
theorem countFallback_ne_error (get : Get) (base : String) (tr : List Req) (e : String) :
    (countFallback get base tr).1 ≠ Except.error e := by
  unfold countFallback
  cases get base [] with
  | fail e2 => simp
  | ok fr =>
    by_cases h : fr.status = 200 <;> simp [h]

/-- The commit-page loop issues at most `fuel` requests. -/
theorem commitsLoop_trace_len (get : Get) (url since : String) :
    ∀ fuel commitsLen total page,
      (commitsLoop get url since fuel commitsLen total page).2.length ≤ fuel := by
  intro fuel
  induction fuel with
  | zero => intro c t p; simp [commitsLoop]
  | succ f ih =>
    intro c t p
    simp only [commitsLoop]
    split
    · split
      next e heq => simp
      next r heq =>
        split
        · simp
        · split
          · simp
          · have hlen := ih r.bodyLen (t + r.bodyLen) (p + 1)
            simp only [List.length_cons]
            omega
    · simp

/-- The total of the pull-request dict is always the sum of the two state
counts. -/
theorem pr_total (get : Get) (repo : String) :
    ((getPullRequestsData get repo).1).totalCount =
      ((getPullRequestsData get repo).1).openCount +
        ((getPullRequestsData get repo).1).closedCount := by
  simp only [getPullRequestsData]
  repeat' split
  all_goals simp

/-- The merged estimate of the pull-request dict is always
`int(closed * 0.8)` of its own closed count. -/
theorem pr_merged (get : Get) (repo : String) :
    ((getPullRequestsData get repo).1).mergedCount =
      pyIntMul08 ((getPullRequestsData get repo).1).closedCount := by
  simp only [getPullRequestsData]
  repeat' split
  all_goals simp [pyIntMul08]

/-- The total of the issues dict is always the sum of the two state
counts. -/
theorem issues_total (get : Get) (repo : String) :
    ((getIssuesData get repo).1).totalCount =
      ((getIssuesData get repo).1).openCount +
        ((getIssuesData get repo).1).closedCount := by
  simp only [getIssuesData]
  repeat' split
  all_goals simp

/-- Truncating division agrees with `Nat` floor division on non-negative
numerators. -/
theorem pyIntMul08_nonneg (c : Int) (h : 0 ≤ c) :
    pyIntMul08 c = (((4 * c).toNat / 5 : Nat) : Int) := by
  obtain ⟨k, hk⟩ : ∃ n : Nat, 4 * c = (n : Int) := ⟨(4 * c).toNat, (Int.toNat_of_nonneg (by positivity)).symm⟩
  rw [pyIntMul08, hk]
  rfl

/-! ## Concrete instances used by witnesses and counterexamples -/

/-- A session on which every request succeeds with an empty list body and
an empty core object. -/
def gEmptyOk : Get := fun _ _ =>
  .ok { status := 200, linkHeader := none, bodyLen := 0, bodyCore := {} }

/-- A session whose core `o/r` response reports `open_issues_count = 5`
while every list endpoint is empty and unpaginated. -/
def gCoreOpen5 : Get := fun u _ =>
  if u = reposUrl "o/r" then
    .ok { status := 200, linkHeader := none, bodyLen := 0, bodyCore := { openIssuesCount := some 5 } }
  else .ok { status := 200, linkHeader := none, bodyLen := 0, bodyCore := {} }

/-- A `Link` header whose `rel="last"` URL carries `page=5&per_page=30`
followed by a further parameter (so both values survive the parse). -/
def hdr127 : String :=
  "<https://api.github.com/repos/o/r/issues?page=5&per_page=30&state=open>; rel=\"last\""

/-- A one-item first-page response carrying `hdr127`. -/
def rLink127 : HttpResponse :=
  { status := 200, linkHeader := some hdr127, bodyLen := 1, bodyCore := {} }

/-- The last-page URL the code extracts from `hdr127` (note the trailing
`>;` left behind by `strip("<>")` after `strip()`). -/
def lpu127 : String :=
  "https://api.github.com/repos/o/r/issues?page=5&per_page=30&state=open>;"

/-- A session answering the extracted last-page URL with 7 items. -/
def g127 : Get := fun u _ =>
  if u = lpu127 then .ok { status := 200, linkHeader := none, bodyLen := 7, bodyCore := {} }
  else .ok { status := 200, linkHeader := none, bodyLen := 0, bodyCore := {} }

/-- A session on which exactly the extracted last-page request raises. -/
def gFailLast : Get := fun u _ =>
  if u = lpu127 then .fail "boom"
  else .ok { status := 200, linkHeader := none, bodyLen := 0, bodyCore := {} }

/-- A session on which every request raises. -/
def gFailAll : Get := fun _ _ => .fail "boom"

/-- A commit stream whose second page (the only three-parameter request)
answers 404 with a 50-item body, after a full 100-item first page. -/
def g404p2 : Get := fun _ ps =>
  if ps.length = 3 then .ok { status := 404, linkHeader := none, bodyLen := 50, bodyCore := {} }
  else .ok { status := 200, linkHeader := none, bodyLen := 100, bodyCore := {} }

/-- A session on which every page has exactly 100 items. -/
def gAll100 : Get := fun _ _ =>
  .ok { status := 200, linkHeader := none, bodyLen := 100, bodyCore := {} }

/-- A contributors response whose `rel="last"` URL parses to page 9. -/
def hdrContrib : String :=
  "<https://api.github.com/repos/o/r/contributors?page=9&per_page=1>; rel=\"last\""

/-- A session answering the contributors `per_page=1` probe with
`hdrContrib` and everything else with empty pages. -/
def gContrib : Get := fun u ps =>
  if u = contributorsUrl "o/r" ∧ ps = [("per_page", "1")] then
    .ok { status := 200, linkHeader := some hdrContrib, bodyLen := 1, bodyCore := {} }
  else .ok { status := 200, linkHeader := none, bodyLen := 0, bodyCore := {} }

/-- A session whose core `o/r` response carries `"language": null`. -/
def gLangNull : Get := fun u _ =>
  if u = reposUrl "o/r" then
    .ok { status := 200, linkHeader := none, bodyLen := 0, bodyCore := { language := some none } }
  else .ok { status := 200, linkHeader := none, bodyLen := 0, bodyCore := {} }

/-- A session whose core `o/r` response carries `"language": "Rust"`. -/
def gLangRust : Get := fun u _ =>
  if u = reposUrl "o/r" then
    .ok { status := 200, linkHeader := none, bodyLen := 0, bodyCore := { language := some (some "Rust") } }
  else .ok { status := 200, linkHeader := none, bodyLen := 0, bodyCore := {} }

/-! ## C2 — pagination exactness of the Paginated Counter -/

/-- C2: whenever the incoming response's `Link` header parses to a last
page `lastPage` with page size `perPage` (30 when the link omits
`per_page`), and the last-page fetch answers 200 with `lr.bodyLen` items,
`_count_from_pagination` issues exactly one additional request — for that
last-page URL — and returns `(lastPage - 1) * perPage + items`. -/
theorem c2_pagination_exact (get : Get) (r : HttpResponse) (base lpu : String)
    (lastPage perPage : Int) (lr : HttpResponse)
    (hparse : lastLinkParse r = some (lpu, lastPage, perPage))
    (hget : get lpu [] = .ok lr) (hst : lr.status = 200) :
    countFromPagination get r base =
      (.ok ((lastPage - 1) * perPage + (lr.bodyLen : Int)), [⟨lpu, []⟩]) := by
  simp [countFromPagination, hparse, hget, hst]

/-- C2 witness: a last-page link with `page=5&per_page=30` and a 7-item
last-page body yields `4 * 30 + 7 = 127`. -/
theorem c2_pagination_exact_witness :
    countFromPagination g127 rLink127 "base" = (.ok 127, [⟨lpu127, []⟩]) := by
  have h := c2_pagination_exact g127 rLink127 "base" lpu127 5 30
    { status := 200, linkHeader := none, bodyLen := 7, bodyCore := {} }
    (by decide) (by decide) rfl
  simpa using h

/-! ## C3 — failure behaviour of the Paginated Counter -/

/-- C3 counterexample: with a parseable last link, a transport failure of
the additional last-page request does not yield the count 0 — it
propagates out of `_count_from_pagination` as an exception (the `try`
around the parse catches only `ValueError`/`IndexError`). -/
theorem c3_counter_failure_counterexample :
    (countFromPagination gFailLast rLink127 "base").1 = Except.error "boom" := by
  have h : lastLinkParse rLink127 = some (lpu127, 5, 30) := by decide
  simp [countFromPagination, h, gFailLast]

/-- C3 amended: an exception escapes `_count_from_pagination` exactly when
the last link parses and the last-page fetch raises; in every other case a
count is returned, and in particular a transport failure of the fallback
request (reached when no last link parses) yields the count 0. -/
theorem c3_counter_failure_amended (get : Get) (r : HttpResponse) (base : String) :
    (∀ e, (countFromPagination get r base).1 = Except.error e ↔
        ∃ lpu lastPage perPage, lastLinkParse r = some (lpu, lastPage, perPage) ∧
          get lpu [] = GetResult.fail e) ∧
    (∀ e, lastLinkParse r = none → get base [] = GetResult.fail e →
        (countFromPagination get r base).1 = Except.ok 0) := by
  constructor
  · intro e
    constructor
    · intro h
      rcases hp : lastLinkParse r with _ | ⟨lpu, lastPage, perPage⟩
      · rw [countFromPagination, hp] at h
        exact absurd h (countFallback_ne_error get base [] e)
      · simp only [countFromPagination, hp] at h
        rcases hg : get lpu [] with e2 | lr
        · simp only [hg] at h
          obtain rfl : e2 = e := by simpa using h
          exact ⟨lpu, lastPage, perPage, rfl, hg⟩
        · simp only [hg] at h
          by_cases hs : lr.status = 200
          · simp [hs] at h
          · simp only [if_neg hs] at h
            exact absurd h (countFallback_ne_error get base [⟨lpu, []⟩] e)
    · rintro ⟨lpu, lastPage, perPage, hp, hg⟩
      simp [countFromPagination, hp, hg]
  · intro e hp hg
    simp [countFromPagination, hp, countFallback, hg]

/-- C3 amended witness: with no `Link` header and a failing fallback
request, the counter returns 0. -/
theorem c3_counter_failure_amended_witness :
    (countFromPagination gFailAll { status := 200, linkHeader := none, bodyLen := 3, bodyCore := {} } "base").1 =
      Except.ok 0 :=
  (c3_counter_failure_amended gFailAll
      { status := 200, linkHeader := none, bodyLen := 3, bodyCore := {} } "base").2
    "boom" (by decide) rfl

/-! ## C4 — the `page=` / `per_page=` substring parse -/

/-- A well-formed last-page URL with `per_page=` before `page=`. -/
def urlPerPageFirst : String :=
  "https://api.github.com/repos/o/r/contributors?per_page=1&page=57"

/-- C4 counterexample: on a well-formed URL ending in
`?per_page=1&page=57`, the parsed page value is 1 — the `per_page`
parameter's value, not 57, the `page` parameter's value — because
`split("page=")[1]` cuts at the first occurrence of the literal `page=`,
which lies inside `per_page=`. -/
theorem c4_link_parse_counterexample :
    pageOfUrl urlPerPageFirst = some 1 ∧ (1 : Int) ≠ 57 := by
  exact ⟨by decide, by decide⟩

/-- C4 amended: the parse takes the substring between the first occurrence
of the literal parameter text and the next `&` (or end of string).  For
`page=` that first occurrence may lie inside `per_page=`: when `page=`
precedes `per_page=` both values are parsed correctly, but when
`per_page=` precedes `page=` the parsed page value is the `per_page`
parameter's value. -/
theorem c4_link_parse_amended :
    pageOfUrl "https://api.github.com/repos/o/r/issues?page=5&per_page=30" = some 5 ∧
    perPageOfUrl "https://api.github.com/repos/o/r/issues?page=5&per_page=30" = some 30 ∧
    pageOfUrl urlPerPageFirst = some 1 ∧
    perPageOfUrl urlPerPageFirst = some 1 := by
  refine ⟨by decide, by decide, by decide, by decide⟩

/-! ## C9 — contributors count taken directly from the last-page index -/

/-- C9: when the contributors probe's response has a `Link` header with a
`rel="last"` relation whose URL yields a page number, that number is
returned directly as the contributors count — no further request is
issued (the trace stays at the single probe) and no
`(last_page - 1) * per_page + items` formula is applied. -/
theorem c9_contributors_lastpage (get : Get) (repo : String) (r : HttpResponse)
    (lh : String) (n : Int)
    (hget : get (contributorsUrl repo) [("per_page", "1")] = .ok r)
    (hst : r.status < 400)
    (hlh : r.linkHeader = some lh)
    (hrel : pyContains relLast lh = true)
    (hpage : pageOfUrl (lastUrlOf lh) = some n) :
    getContributorsCount get repo = (n, [⟨contributorsUrl repo, [("per_page", "1")]⟩]) := by
  have hst2 : ¬ 400 ≤ r.status := by omega
  simp [getContributorsCount, hget, hst2, hlh, hrel, hpage]

/-- C9 witness: a last link parsing to page 9 yields the count 9 from the
single probe request. -/
theorem c9_contributors_lastpage_witness :
    getContributorsCount gContrib "o/r" =
      (9, [⟨contributorsUrl "o/r", [("per_page", "1")]⟩]) :=
  c9_contributors_lastpage gContrib "o/r"
    { status := 200, linkHeader := some hdrContrib, bodyLen := 1, bodyCore := {} }
    hdrContrib 9 (by decide) (by decide) rfl (by decide) (by decide)

/-! ## C5 — failure behaviour of the recent-commits count -/

/-- C5 counterexample: with a full 100-item first page and a 404 on page 2
(a request failure after the first page), `_get_recent_commits_count`
returns the partial sum 100 accumulated so far — not 0. -/
theorem c5_commits_failure_counterexample :
    (getRecentCommitsCount g404p2 "s" "o/r").1 = 100 ∧
      (getRecentCommitsCount g404p2 "s" "o/r").1 ≠ 0 := by
  exact ⟨by decide, by decide⟩

/-- C5 amended: a raised transport exception at any point — on the first
request or on any loop page — yields 0 for the whole metric, but a non-200
status on a page after the first merely stops the scan and the partial sum
accumulated from the earlier pages is returned. -/
theorem c5_commits_failure_amended (get : Get) (since repo : String) :
    (∀ e, get (commitsUrl repo) [("since", since), ("per_page", "100")] = .fail e →
        (getRecentCommitsCount get since repo).1 = 0) ∧
    (∀ r e tr, get (commitsUrl repo) [("since", since), ("per_page", "100")] = .ok r →
        ¬ 400 ≤ r.status →
        commitsLoop get (commitsUrl repo) since 9 r.bodyLen r.bodyLen 2 = (.error e, tr) →
        (getRecentCommitsCount get since repo).1 = 0) ∧
    (∀ r r2, get (commitsUrl repo) [("since", since), ("per_page", "100")] = .ok r →
        r.status = 200 → r.bodyLen = 100 →
        get (commitsUrl repo) [("since", since), ("per_page", "100"), ("page", "2")] = .ok r2 →
        r2.status ≠ 200 →
        (getRecentCommitsCount get since repo).1 = 100) := by
  refine ⟨?_, ?_, ?_⟩
  · intro e h
    simp [getRecentCommitsCount, h]
  · intro r e tr h hst hloop
    simp [getRecentCommitsCount, h, hst, hloop]
  · intro r r2 h hrst hlen h2 h2st
    have hst : ¬ 400 ≤ r.status := by omega
    simp only [getRecentCommitsCount, h, hst, if_false, ite_false, hlen]
    rw [commitsLoop]
    rw [show (toString (2 : Nat)) = "2" from rfl]
    simp [h2, h2st]

/-- C5 amended witness: when every request raises, the metric is 0. -/
theorem c5_commits_failure_amended_witness :
    (getRecentCommitsCount gFailAll "s" "o/r").1 = 0 :=
  (c5_commits_failure_amended gFailAll "s" "o/r").1 "boom" rfl

/-! ## C6 — the bounded page scan of the recent-commits count -/

/-- C6: the recent-commits counter never issues more than 10 page
requests, and on a stream where every page answers 200 with exactly 100
items it returns 1000 after exactly 10 requests — never an 11th. -/
theorem c6_commits_bounded (get : Get) (since repo : String) :
    (getRecentCommitsCount get since repo).2.length ≤ 10 ∧
    ((∀ u ps, get u ps =
        .ok { status := 200, linkHeader := none, bodyLen := 100, bodyCore := {} }) →
      (getRecentCommitsCount get since repo).1 = 1000 ∧
      (getRecentCommitsCount get since repo).2.length = 10) := by
  refine ⟨?_, ?_⟩
  · rcases hg : get (commitsUrl repo) [("since", since), ("per_page", "100")] with e | r
    · simp [getRecentCommitsCount, hg]
    · by_cases hst : 400 ≤ r.status
      · simp [getRecentCommitsCount, hg, hst]
      · have hl := commitsLoop_trace_len get (commitsUrl repo) since 9 r.bodyLen r.bodyLen 2
        rcases hm : commitsLoop get (commitsUrl repo) since 9 r.bodyLen r.bodyLen 2 with ⟨res, tr⟩
        rw [hm] at hl
        have hl2 : tr.length ≤ 9 := by simpa using hl
        cases res with
        | error e =>
          simp only [getRecentCommitsCount, hg, hst, if_false, ite_false, hm, List.length_cons]
          omega
        | ok total =>
          simp only [getRecentCommitsCount, hg, hst, if_false, ite_false, hm, List.length_cons]
          omega
  · intro h
    have hg : get = fun _ _ =>
        GetResult.ok { status := 200, linkHeader := none, bodyLen := 100, bodyCore := {} } :=
      funext fun u => funext fun ps => h u ps
    subst hg
    exact ⟨rfl, rfl⟩

/-- C6 witness: the all-100 stream stops at 1000 commits over exactly 10
requests. -/
theorem c6_commits_bounded_witness :
    (getRecentCommitsCount gAll100 "s" "o/r").1 = 1000 ∧
      (getRecentCommitsCount gAll100 "s" "o/r").2.length = 10 :=
  (c6_commits_bounded gAll100 "s" "o/r").2 (fun _ _ => rfl)

/-! ## C7 — core-info failure aborts the fetch with an all-zero record -/

/-- C7: if the core repository-info query fails — by transport exception
(with its non-empty message) or by non-2xx status — `get_repo_data` issues
no further request (none of the four sub-fetches is attempted), raises
nothing, and returns a record whose thirteen numeric fields are all 0,
whose language is `"Unknown"`, and whose error string is non-empty. -/
theorem c7_core_failure (get : Get) (since nowIso repo : String) :
    (∀ e, get (reposUrl repo) [] = .fail e → e ≠ "" →
      (getRepoData get since nowIso repo).2 = [⟨reposUrl repo, []⟩] ∧
      allNumericZero (getRepoData get since nowIso repo).1 = true ∧
      (getRepoData get since nowIso repo).1.language = some "Unknown" ∧
      ∃ msg, (getRepoData get since nowIso repo).1.error = some msg ∧ msg ≠ "") ∧
    (∀ r, get (reposUrl repo) [] = .ok r → 400 ≤ r.status →
      (getRepoData get since nowIso repo).2 = [⟨reposUrl repo, []⟩] ∧
      allNumericZero (getRepoData get since nowIso repo).1 = true ∧
      (getRepoData get since nowIso repo).1.language = some "Unknown" ∧
      ∃ msg, (getRepoData get since nowIso repo).1.error = some msg ∧ msg ≠ "") := by
  refine ⟨?_, ?_⟩
  · intro e h he
    refine ⟨?_, ?_, ?_, e, ?_, he⟩ <;> simp [getRepoData, h, errorData, allNumericZero]
  · intro r h hst
    refine ⟨?_, ?_, ?_, httpErrorMsg r.status, ?_, httpErrorMsg_ne_empty r.status⟩ <;>
      simp [getRepoData, h, hst, errorData, allNumericZero]

/-- C7 witness: an all-failing session yields the degraded record from the
single core request. -/
theorem c7_core_failure_witness :
    (getRepoData gFailAll "s" "n" "o/r").2 = [⟨reposUrl "o/r", []⟩] ∧
    allNumericZero (getRepoData gFailAll "s" "n" "o/r").1 = true ∧
    (getRepoData gFailAll "s" "n" "o/r").1.language = some "Unknown" ∧
    ∃ msg, (getRepoData gFailAll "s" "n" "o/r").1.error = some msg ∧ msg ≠ "" :=
  (c7_core_failure gFailAll "s" "n" "o/r").1 "boom" rfl (by decide)

/-! ## C8 — the merged pull-request estimate -/

/-- C8: for every successfully-fetched record with a non-negative closed
count, `merged_prs` is the floor of 80% of `closed_prs` — written as the
`Nat` floor division `⌊4 * closed / 5⌋` (for non-negative counts the
`int()` truncation in the source coincides with the floor). -/
theorem c8_merged_estimate (get : Get) (since nowIso repo : String)
    (hsuc : (getRepoData get since nowIso repo).1.error = none)
    (hnn : 0 ≤ (getRepoData get since nowIso repo).1.closed_prs) :
    (getRepoData get since nowIso repo).1.merged_prs =
      (((4 * (getRepoData get since nowIso repo).1.closed_prs).toNat / 5 : Nat) : Int) := by
  have key : (getRepoData get since nowIso repo).1.merged_prs =
      pyIntMul08 (getRepoData get since nowIso repo).1.closed_prs := by
    rcases hg : get (reposUrl repo) [] with e | r
    · simp [getRepoData, hg, errorData] at hsuc
    · by_cases hst : 400 ≤ r.status
      · simp [getRepoData, hg, hst, errorData] at hsuc
      · have hpr := pr_merged get repo
        rcases h1 : getContributorsCount get repo with ⟨cc, t1⟩
        rcases h2 : getRecentCommitsCount get since repo with ⟨rc, t2⟩
        rcases h3 : getPullRequestsData get repo with ⟨pr, t3⟩
        rcases h4 : getIssuesData get repo with ⟨isd, t4⟩
        rw [h3] at hpr
        simp only [getRepoData, hg, hst, if_false, ite_false, h1, h2, h3, h4]
        simpa using hpr
  rw [key, pyIntMul08_nonneg _ hnn]

/-- C8 witness: a plain empty repository has `closed_prs = 0` and
`merged_prs = 0 = ⌊4 * 0 / 5⌋`. -/
theorem c8_merged_estimate_witness :
    (getRepoData gEmptyOk "s" "n" "o/r").1.merged_prs =
      (((4 * (getRepoData gEmptyOk "s" "n" "o/r").1.closed_prs).toNat / 5 : Nat) : Int) :=
  c8_merged_estimate gEmptyOk "s" "n" "o/r" (by decide) (by decide)

/-! ## C10 — the language field -/

/-- C10 counterexample: a core response whose `language` entry carries a
null value produces a record whose language is `None` — not the string
`"Unknown"` — because `repo_data.get("language", "Unknown")` substitutes
the default only when the key is absent. -/
theorem c10_language_counterexample :
    (getRepoData gLangNull "s" "n" "o/r").1.language = none ∧
      (getRepoData gLangNull "s" "n" "o/r").1.language ≠ some "Unknown" := by
  exact ⟨by decide, by decide⟩

/-- C10 amended: for a successful fetch the record's language is the core
response's language value passed through verbatim when the key is present
(including a null value, which stays null), and is `"Unknown"` only when
the key is absent from the response. -/
theorem c10_language_amended (get : Get) (since nowIso repo : String) (r : HttpResponse)
    (hget : get (reposUrl repo) [] = .ok r) (hst : r.status < 400) :
    (r.bodyCore.language = none →
        (getRepoData get since nowIso repo).1.language = some "Unknown") ∧
    (∀ v, r.bodyCore.language = some v →
        (getRepoData get since nowIso repo).1.language = v) := by
  have hst2 : ¬ 400 ≤ r.status := by omega
  rcases h1 : getContributorsCount get repo with ⟨cc, t1⟩
  rcases h2 : getRecentCommitsCount get since repo with ⟨rc, t2⟩
  rcases h3 : getPullRequestsData get repo with ⟨pr, t3⟩
  rcases h4 : getIssuesData get repo with ⟨isd, t4⟩
  constructor
  · intro hl
    simp only [getRepoData, hget, hst2, if_false, ite_false, h1, h2, h3, h4, hl]
  · intro v hl
    simp only [getRepoData, hget, hst2, if_false, ite_false, h1, h2, h3, h4, hl]

/-- C10 amended witness: a core response with `"language": "Rust"` yields
a record whose language is `"Rust"`. -/
theorem c10_language_amended_witness :
    (getRepoData gLangRust "s" "n" "o/r").1.language = some "Rust" :=
  (c10_language_amended gLangRust "s" "n" "o/r"
      { status := 200, linkHeader := none, bodyLen := 0,
        bodyCore := { language := some (some "Rust") } }
      (by decide) (by decide)).2 (some "Rust") rfl

/-! ## C1 — the total = open + closed identities of the assembled record -/

/-- C1 counterexample: when the core response reports
`open_issues_count = 5` while the paginated issues sub-fetch counts 0 open
and 0 closed issues, the assembled record has `total_issues = 0` but
`open_issues + closed_issues = 5`: the identity
`total_issues == open_issues + closed_issues` fails, because
`open_issues` is taken from the core body while `total_issues` is the sum
of the two paginated counts. -/
theorem c1_total_counterexample :
    (getRepoData gCoreOpen5 "s" "n" "o/r").1.total_issues ≠
      (getRepoData gCoreOpen5 "s" "n" "o/r").1.open_issues +
        (getRepoData gCoreOpen5 "s" "n" "o/r").1.closed_issues := by
  decide

/-- C1 amended: `total_prs = open_prs + closed_prs` holds for every
record; for a successful record `total_issues` equals the paginated
open-issues count plus `closed_issues` — where that paginated count is a
value not stored in the record and in general different from its
`open_issues` field, which comes verbatim from the core response — and a
degraded record has all three issue fields 0 (so the identity holds there
trivially). -/
theorem c1_total_fields_amended (get : Get) (since nowIso repo : String) :
    (getRepoData get since nowIso repo).1.total_prs =
      (getRepoData get since nowIso repo).1.open_prs +
        (getRepoData get since nowIso repo).1.closed_prs ∧
    ((getRepoData get since nowIso repo).1.error = none →
      (getRepoData get since nowIso repo).1.total_issues =
        (getIssuesData get repo).1.openCount +
          (getRepoData get since nowIso repo).1.closed_issues) ∧
    ((getRepoData get since nowIso repo).1.error ≠ none →
      (getRepoData get since nowIso repo).1.total_issues = 0 ∧
      (getRepoData get since nowIso repo).1.open_issues = 0 ∧
      (getRepoData get since nowIso repo).1.closed_issues = 0) := by
  rcases hg : get (reposUrl repo) [] with e | r
  · refine ⟨?_, ?_, ?_⟩ <;> simp [getRepoData, hg, errorData]
  · by_cases hst : 400 ≤ r.status
    · refine ⟨?_, ?_, ?_⟩ <;> simp [getRepoData, hg, hst, errorData]
    · have hprt := pr_total get repo
      have hist := issues_total get repo
      rcases h1 : getContributorsCount get repo with ⟨cc, t1⟩
      rcases h2 : getRecentCommitsCount get since repo with ⟨rc, t2⟩
      rcases h3 : getPullRequestsData get repo with ⟨pr, t3⟩
      rcases h4 : getIssuesData get repo with ⟨isd, t4⟩
      rw [h3] at hprt
      rw [h4] at hist
      refine ⟨?_, ?_, ?_⟩
      · simp only [getRepoData, hg, hst, if_false, ite_false, h1, h2, h3, h4]
        simpa using hprt
      · intro _
        simp only [getRepoData, hg, hst, if_false, ite_false, h1, h2, h3, h4]
        simpa using hist
      · intro hne
        exfalso
        apply hne
        simp only [getRepoData, hg, hst, if_false, ite_false, h1, h2, h3, h4]

/-- C1 amended witness: on an empty repository the successful record
satisfies the amended issues identity. -/
theorem c1_total_fields_amended_witness :
    (getRepoData gEmptyOk "s" "n" "o/r").1.total_issues =
      (getIssuesData gEmptyOk "o/r").1.openCount +
        (getRepoData gEmptyOk "s" "n" "o/r").1.closed_issues :=
  (c1_total_fields_amended gEmptyOk "s" "n" "o/r").2.1 (by decide)
